import Mathlib

/-
  Shallow embedding of the weather dashboard page (src/src/app/page.tsx).

  The page is a single React component.  Its reactive state is modelled by the
  record AppState below; each event handler of the component is translated to a
  state-transforming function.  The two HTTP requests a search can issue are
  modelled by a NetResponses record supplied by the environment: the field is
  some payload when the response is ok and none when it is not ok.  Functions
  that can talk to the network return the new state together with the number of
  HTTP requests they issued.
-/

namespace WeatherApp

/-- Main block of a current-conditions response, as in the WeatherData
interface of the page: temp, feels_like, temp_max, temp_min, humidity. -/
structure WeatherMain where
  temp : Int
  feels_like : Int
  temp_max : Int
  temp_min : Int
  humidity : Int
deriving Repr, DecidableEq

/-- Wind block of a current-conditions response. -/
structure WindInfo where
  speed : Int
deriving Repr, DecidableEq

/-- One entry of the weather array of a current-conditions response. -/
structure WeatherCondition where
  main : String
deriving Repr, DecidableEq

/-- Optional precipitation block; the JSON field is named 1h in the source. -/
structure Precip where
  oneH : Int
deriving Repr, DecidableEq

/-- Current-conditions payload, the WeatherData interface of the page. -/
structure WeatherData where
  name : String
  main : WeatherMain
  wind : WindInfo
  weather : List WeatherCondition
  rain : Option Precip
  snow : Option Precip
deriving Repr, DecidableEq

/-- Main block of one forecast point. -/
structure ForecastMain where
  temp : Int
deriving Repr, DecidableEq

/-- One three-hour forecast point, the ForecastData interface of the page. -/
structure ForecastData where
  dt : Int
  main : ForecastMain
deriving Repr, DecidableEq

/-- One point of the forecast chart, the ChartData interface of the page. -/
structure ChartData where
  date : String
  temp : Int
deriving Repr, DecidableEq

/-- Single-slot undoable action, the lastAction state of the page. -/
structure LastAction where
  type : String
  value : String
deriving Repr, DecidableEq

/-- Reactive state of the Home component: one field per useState hook. -/
structure AppState where
  location : String
  weather : Option WeatherData
  forecast : List ForecastData
  units : String
  theme : String
  loading : Bool
  error : Option String
  recentLocations : List String
  favorites : List String
  showFeatureInfo : Bool
  lastAction : Option LastAction
  showDetails : Bool
deriving Repr, DecidableEq

/-- Initial values of the useState hooks of the Home component. -/
def initState : AppState where
  location := ""
  weather := none
  forecast := []
  units := "metric"
  theme := "light"
  loading := false
  error := none
  recentLocations := []
  favorites := []
  showFeatureInfo := true
  lastAction := none
  showDetails := false

/-- Responses the network would give to the two requests of one search:
none models a response whose ok flag is false. -/
structure NetResponses where
  weatherResp : Option WeatherData
  forecastResp : Option (List ForecastData)
deriving Repr

/-- Error message set when no API key is configured (fetchWeather, line 140). -/
def serviceUnavailableMsg : String :=
  "Weather data is temporarily unavailable. Please check back later."

/-- Error message thrown when the current-conditions response is not ok
(fetchWeather, line 151). -/
def locationNotFoundMsg : String :=
  "Location not found. Please check the spelling and try again."

/-- Error message thrown when the forecast response is not ok
(fetchWeather, line 159). -/
def forecastUnavailableMsg : String :=
  "Forecast data unavailable"

/-- Truthiness test of the guard if (!API_KEY): in JavaScript both an unset
environment variable (undefined) and the empty string are falsy. -/
def apiKeyMissing : Option String → Bool
  | none => true
  | some k => k.isEmpty

/-- The fetchWeather handler (lines 138-177).  Control flow of the source:
an early return when the key is missing; otherwise loading is set and error
cleared, the current-conditions request is issued (a non-ok response throws
the location-not-found message), then the forecast request (a non-ok response
throws the forecast-unavailable message); on success weather and forecast are
stored and the searched location is prepended to recent locations when absent,
truncated to five; the catch clause stores the thrown message and the finally
clause clears loading.  The second component counts the HTTP requests issued. -/
def fetchWeather (apiKey : Option String) (net : NetResponses)
    (searchLocation : String) (s : AppState) : AppState × Nat :=
  if apiKeyMissing apiKey then
    ({ s with error := some serviceUnavailableMsg }, 0)
  else
    let s1 := { s with loading := true, error := none }
    match net.weatherResp with
    | none => ({ s1 with error := some locationNotFoundMsg, loading := false }, 1)
    | some weatherData =>
      match net.forecastResp with
      | none => ({ s1 with error := some forecastUnavailableMsg, loading := false }, 2)
      | some forecastList =>
        let s2 := { s1 with weather := some weatherData, forecast := forecastList }
        let s3 :=
          if searchLocation ∈ s2.recentLocations then s2
          else { s2 with recentLocations := (searchLocation :: s2.recentLocations).take 5 }
        ({ s3 with loading := false }, 2)

/-- The handleSearch handler (lines 179-184): a search is submitted only when
the trimmed input is non-empty (truthy in the source). -/
def handleSearch (apiKey : Option String) (net : NetResponses) (s : AppState) :
    AppState × Nat :=
  if (s.location.trim).isEmpty then (s, 0)
  else fetchWeather apiKey net s.location s

/-- The toggleFavorite handler (lines 186-196): remove the location when it is
already a favorite (filter keeps entries different from it), append otherwise. -/
def toggleFavorite (loc : String) (s : AppState) : AppState :=
  if loc ∈ s.favorites then
    { s with favorites := s.favorites.filter (fun f => f != loc) }
  else
    { s with favorites := s.favorites ++ [loc] }

/-- The toggleUnits handler (lines 198-202): flip the unit string and record
the old value as the last undoable action. -/
def toggleUnits (s : AppState) : AppState :=
  { s with
    units := if s.units = "metric" then "imperial" else "metric"
    lastAction := some { type := "units", value := s.units } }

/-- The undoLastAction handler (lines 204-209): when the slot holds a units
action, restore the recorded value and clear the slot; otherwise do nothing. -/
def undoLastAction (s : AppState) : AppState :=
  match s.lastAction with
  | some a => if a.type = "units" then { s with units := a.value, lastAction := none } else s
  | none => s

/-- The theme toggle of the header button (line 278). -/
def toggleTheme (s : AppState) : AppState :=
  { s with theme := if s.theme = "light" then "dark" else "light" }

/-- The dismissFeatureInfo handler (lines 247-254), persistence aside. -/
def dismissFeatureInfo (s : AppState) : AppState :=
  { s with showFeatureInfo := false }

/-- The details summary click handler (line 401). -/
def toggleDetails (s : AppState) : AppState :=
  { s with showDetails := !s.showDetails }

/-- The search input change handler (line 317). -/
def setLocation (text : String) (s : AppState) : AppState :=
  { s with location := text }

/-- Chart data computed by renderForecastChart (lines 218-223): keep every
point whose index is divisible by 8, then turn each kept point into a chart
point carrying its temperature and a date label.  The fmt argument stands for
the locale date formatting applied to the millisecond timestamp dt * 1000. -/
def chartData (fmt : Int → String) (forecast : List ForecastData) : List ChartData :=
  ((forecast.enum.filter (fun p => p.1 % 8 == 0)).map Prod.snd).map
    (fun item => { date := fmt (item.dt * 1000), temp := item.main.temp })

/-- JavaScript substring containment, as in error.includes of the source. -/
def strIncludes (s pat : String) : Bool :=
  decide (List.IsInfix pat.data s.data)

/-- Guard of the footer notice (line 495): the notice asking the user to
configure the API key renders only when an error message is present and that
message contains the text API key. -/
def footerApiKeyNotice (s : AppState) : Bool :=
  match s.error with
  | none => false
  | some e => strIncludes e "API key"

/-- Guard of the undo control in the header (line 297): it renders only while
the last-action slot is occupied. -/
def undoControlVisible (s : AppState) : Bool :=
  s.lastAction.isSome

/-- User events the page reacts to, one per handler wired into the JSX. -/
inductive Event where
  | submit
  | chipSearch (loc : String)
  | favToggle (loc : String)
  | unitsToggle
  | undo
  | themeToggle
  | dismissInfo
  | detailsToggle
  | inputChange (text : String)

/-- Dispatch of one user event to the corresponding handler, paired with the
number of HTTP requests the handler issues.  Only the two search events can
reach fetchWeather; every other handler is synchronous state mutation. -/
def applyEvent (apiKey : Option String) (net : NetResponses) :
    Event → AppState → AppState × Nat
  | .submit, s => handleSearch apiKey net s
  | .chipSearch loc, s => fetchWeather apiKey net loc s
  | .favToggle loc, s => (toggleFavorite loc s, 0)
  | .unitsToggle, s => (toggleUnits s, 0)
  | .undo, s => (undoLastAction s, 0)
  | .themeToggle, s => (toggleTheme s, 0)
  | .dismissInfo, s => (dismissFeatureInfo s, 0)
  | .detailsToggle, s => (toggleDetails s, 0)
  | .inputChange t, s => (setLocation t s, 0)

/-- States reachable from the initial state by user events, under arbitrary
key configuration and arbitrary network responses at each step. -/
inductive Reachable : AppState → Prop where
  | init : Reachable initState
  | step (apiKey : Option String) (net : NetResponses) (e : Event) {s : AppState} :
      Reachable s → Reachable (applyEvent apiKey net e s).1

/-- State invariant of the spec: recent locations hold at most five entries
and no duplicates, and favorites hold no duplicates. -/
def Inv (s : AppState) : Prop :=
  s.recentLocations.length ≤ 5 ∧ s.recentLocations.Nodup ∧ s.favorites.Nodup

/-- Concrete current-conditions payload used by witnesses. -/
def sampleWeather : WeatherData where
  name := "Paris"
  main := { temp := 20, feels_like := 19, temp_max := 22, temp_min := 15, humidity := 60 }
  wind := { speed := 3 }
  weather := [{ main := "Clouds" }]
  rain := none
  snow := none

/-- Network responses where both requests succeed, used by witnesses. -/
def sampleNetOk : NetResponses where
  weatherResp := some sampleWeather
  forecastResp := some []

/-- Network responses where the current-conditions request succeeds but the
forecast request does not, used by witnesses. -/
def sampleNetForecastDown : NetResponses where
  weatherResp := some sampleWeather
  forecastResp := none

/-- State whose recent locations already contain Paris, used by witnesses. -/
def stateWithParis : AppState :=
  { initState with recentLocations := ["Paris"] }

/-- Unfolding of fetchWeather when both requests succeed. -/
theorem fetchWeather_success (apiKey : Option String) (net : NetResponses)
    (w : WeatherData) (fl : List ForecastData) (loc : String) (s : AppState)
    (hk : apiKeyMissing apiKey = false)
    (hw : net.weatherResp = some w) (hf : net.forecastResp = some fl) :
    fetchWeather apiKey net loc s =
      (if loc ∈ s.recentLocations then
         { s with loading := false, error := none, weather := some w, forecast := fl }
       else
         { s with loading := false, error := none, weather := some w, forecast := fl,
                  recentLocations := (loc :: s.recentLocations).take 5 }, 2) := by
  by_cases hm : loc ∈ s.recentLocations <;>
    simp [fetchWeather, hk, hw, hf, hm]

/-- C1: for every place name P not already in Recent Locations and every prior
recents list satisfying the no-duplicates invariant, a successful search for P
makes Recent Locations equal to P consed onto the previous list truncated to at
most 5 entries, with no duplicates. -/
theorem claim1_search_prepends_recents (apiKey : Option String) (net : NetResponses)
    (w : WeatherData) (fl : List ForecastData) (P : String) (s : AppState)
    (hk : apiKeyMissing apiKey = false)
    (hw : net.weatherResp = some w) (hf : net.forecastResp = some fl)
    (hP : P ∉ s.recentLocations) (hnd : s.recentLocations.Nodup) :
    ((fetchWeather apiKey net P s).1).recentLocations = (P :: s.recentLocations).take 5 ∧
    ((fetchWeather apiKey net P s).1).recentLocations.Nodup ∧
    ((fetchWeather apiKey net P s).1).recentLocations.length ≤ 5 := by
  have he : ((fetchWeather apiKey net P s).1).recentLocations =
      (P :: s.recentLocations).take 5 := by
    rw [fetchWeather_success apiKey net w fl P s hk hw hf]
    simp [hP]
  refine ⟨he, ?_, ?_⟩
  · rw [he]
    exact (List.take_sublist 5 _).nodup (List.nodup_cons.mpr ⟨hP, hnd⟩)
  · rw [he]
    exact List.length_take_le 5 _

/-- Witness for C1 at a concrete successful search for Paris from the initial
state. -/
theorem claim1_witness :
    apiKeyMissing (some "k") = false ∧
    sampleNetOk.weatherResp = some sampleWeather ∧
    sampleNetOk.forecastResp = some [] ∧
    "Paris" ∉ initState.recentLocations ∧
    initState.recentLocations.Nodup ∧
    (((fetchWeather (some "k") sampleNetOk "Paris" initState).1).recentLocations =
        ("Paris" :: initState.recentLocations).take 5 ∧
      ((fetchWeather (some "k") sampleNetOk "Paris" initState).1).recentLocations.Nodup ∧
      ((fetchWeather (some "k") sampleNetOk "Paris" initState).1).recentLocations.length ≤ 5) :=
  ⟨by decide, rfl, rfl, by decide, by decide,
    claim1_search_prepends_recents (some "k") sampleNetOk sampleWeather [] "Paris" initState
      (by decide) rfl rfl (by decide) (by decide)⟩

/-- C2: with no configured API credential a search issues no request, sets the
service-unavailable message, and leaves loading, weather and forecast as they
were. -/
theorem claim2_missing_key_no_request (apiKey : Option String) (net : NetResponses)
    (loc : String) (s : AppState) (h : apiKeyMissing apiKey = true) :
    (fetchWeather apiKey net loc s).2 = 0 ∧
    (fetchWeather apiKey net loc s).1.error = some serviceUnavailableMsg ∧
    (fetchWeather apiKey net loc s).1.loading = s.loading ∧
    (fetchWeather apiKey net loc s).1.weather = s.weather ∧
    (fetchWeather apiKey net loc s).1.forecast = s.forecast := by
  simp [fetchWeather, h]

/-- Witness for C2 at a concrete search with no key configured. -/
theorem claim2_witness :
    apiKeyMissing none = true ∧
    ((fetchWeather none sampleNetOk "Paris" initState).2 = 0 ∧
      (fetchWeather none sampleNetOk "Paris" initState).1.error = some serviceUnavailableMsg ∧
      (fetchWeather none sampleNetOk "Paris" initState).1.loading = initState.loading ∧
      (fetchWeather none sampleNetOk "Paris" initState).1.weather = initState.weather ∧
      (fetchWeather none sampleNetOk "Paris" initState).1.forecast = initState.forecast) :=
  ⟨rfl, claim2_missing_key_no_request none sampleNetOk "Paris" initState rfl⟩

/-- C3: when the current-conditions request succeeds but the forecast request
does not, the search fails with the forecast-unavailable message and the stored
weather, forecast, recent locations and favorites are exactly as before. -/
theorem claim3_forecast_failure_discards_all (apiKey : Option String)
    (net : NetResponses) (w : WeatherData) (loc : String) (s : AppState)
    (hk : apiKeyMissing apiKey = false)
    (hw : net.weatherResp = some w) (hf : net.forecastResp = none) :
    (fetchWeather apiKey net loc s).1.error = some forecastUnavailableMsg ∧
    (fetchWeather apiKey net loc s).1.weather = s.weather ∧
    (fetchWeather apiKey net loc s).1.forecast = s.forecast ∧
    (fetchWeather apiKey net loc s).1.recentLocations = s.recentLocations ∧
    (fetchWeather apiKey net loc s).1.favorites = s.favorites ∧
    (fetchWeather apiKey net loc s).1.loading = false := by
  simp [fetchWeather, hk, hw, hf]

/-- Witness for C3 at a concrete search whose forecast request is down. -/
theorem claim3_witness :
    apiKeyMissing (some "k") = false ∧
    sampleNetForecastDown.weatherResp = some sampleWeather ∧
    sampleNetForecastDown.forecastResp = none ∧
    ((fetchWeather (some "k") sampleNetForecastDown "Paris" initState).1.error =
        some forecastUnavailableMsg ∧
      (fetchWeather (some "k") sampleNetForecastDown "Paris" initState).1.weather =
        initState.weather ∧
      (fetchWeather (some "k") sampleNetForecastDown "Paris" initState).1.forecast =
        initState.forecast ∧
      (fetchWeather (some "k") sampleNetForecastDown "Paris" initState).1.recentLocations =
        initState.recentLocations ∧
      (fetchWeather (some "k") sampleNetForecastDown "Paris" initState).1.favorites =
        initState.favorites ∧
      (fetchWeather (some "k") sampleNetForecastDown "Paris" initState).1.loading = false) :=
  ⟨by decide, rfl, rfl,
    claim3_forecast_failure_discards_all (some "k") sampleNetForecastDown sampleWeather
      "Paris" initState (by decide) rfl rfl⟩

/-- C4: undo after a unit toggle restores the exact previous unit value and
clears the slot, hiding the undo control; a second undo changes nothing. -/
theorem claim4_undo_restores_units (s : AppState) :
    (undoLastAction (toggleUnits s)).units = s.units ∧
    (undoLastAction (toggleUnits s)).lastAction = none ∧
    undoControlVisible (undoLastAction (toggleUnits s)) = false ∧
    undoLastAction (undoLastAction (toggleUnits s)) = undoLastAction (toggleUnits s) := by
  simp [undoLastAction, toggleUnits, undoControlVisible]

/-- C5: toggling the favorite status of P twice returns the favorites to
exactly their original membership. -/
theorem claim5_favorite_double_toggle (P x : String) (s : AppState) :
    (x ∈ (toggleFavorite P (toggleFavorite P s)).favorites) ↔ x ∈ s.favorites := by
  by_cases hP : P ∈ s.favorites <;> by_cases hx : x = P <;>
    simp_all [toggleFavorite, List.mem_filter, bne_iff_ne]

/-- C8: toggling units flips the unit string, records the prior value in the
undo slot, issues no HTTP request and leaves every other state field exactly
unchanged. -/
theorem claim8_units_toggle_frame (apiKey : Option String) (net : NetResponses)
    (s : AppState) :
    (applyEvent apiKey net Event.unitsToggle s).2 = 0 ∧
    (applyEvent apiKey net Event.unitsToggle s).1.units =
      (if s.units = "metric" then "imperial" else "metric") ∧
    (applyEvent apiKey net Event.unitsToggle s).1.lastAction =
      some { type := "units", value := s.units } ∧
    (applyEvent apiKey net Event.unitsToggle s).1.weather = s.weather ∧
    (applyEvent apiKey net Event.unitsToggle s).1.forecast = s.forecast ∧
    (applyEvent apiKey net Event.unitsToggle s).1.theme = s.theme ∧
    (applyEvent apiKey net Event.unitsToggle s).1.favorites = s.favorites ∧
    (applyEvent apiKey net Event.unitsToggle s).1.recentLocations = s.recentLocations ∧
    (applyEvent apiKey net Event.unitsToggle s).1.location = s.location ∧
    (applyEvent apiKey net Event.unitsToggle s).1.loading = s.loading ∧
    (applyEvent apiKey net Event.unitsToggle s).1.error = s.error ∧
    (applyEvent apiKey net Event.unitsToggle s).1.showFeatureInfo = s.showFeatureInfo ∧
    (applyEvent apiKey net Event.unitsToggle s).1.showDetails = s.showDetails := by
  simp [applyEvent, toggleUnits]

/-- C9 counterevidence: with the credential missing the error becomes the
service-unavailable message, and with an invalid credential (non-ok response)
it becomes the location-not-found message; neither message contains the text
API key, so the footer notice does not render in either situation. -/
theorem claim9_footer_notice_not_rendered :
    apiKeyMissing none = true ∧
    (fetchWeather none { weatherResp := none, forecastResp := none } "Paris" initState).1.error
      = some serviceUnavailableMsg ∧
    footerApiKeyNotice
      (fetchWeather none { weatherResp := none, forecastResp := none } "Paris" initState).1
      = false ∧
    (fetchWeather (some "badkey") { weatherResp := none, forecastResp := none } "Paris"
        initState).1.error = some locationNotFoundMsg ∧
    footerApiKeyNotice
      (fetchWeather (some "badkey") { weatherResp := none, forecastResp := none } "Paris"
        initState).1 = false := by
  refine ⟨rfl, by decide, by decide, by decide, by decide⟩

/-- C10: a successful search for a place already present anywhere in Recent
Locations leaves the list exactly unchanged. -/
theorem claim10_search_existing_keeps_recents (apiKey : Option String)
    (net : NetResponses) (w : WeatherData) (fl : List ForecastData) (P : String)
    (s : AppState) (hk : apiKeyMissing apiKey = false)
    (hw : net.weatherResp = some w) (hf : net.forecastResp = some fl)
    (hP : P ∈ s.recentLocations) :
    ((fetchWeather apiKey net P s).1).recentLocations = s.recentLocations := by
  rw [fetchWeather_success apiKey net w fl P s hk hw hf]
  simp [hP]

/-- Structural form of the decimation performed by the chart: keep the head,
then skip seven points and recurse. -/
def every8 {α : Type} : List α → List α
  | [] => []
  | a :: l => a :: every8 (l.drop 7)
termination_by l => l.length
decreasing_by simp [List.length_drop]; omega

/-- Fuel-indexed lemma: the element of every8 at position j is the element of
the original list at position 8 * j. -/
theorem every8_getElem_aux {α : Type} :
    ∀ (n : Nat) (l : List α), l.length ≤ n → ∀ (j : Nat), (every8 l)[j]? = l[8 * j]?
  | _, [], _, j => by simp [every8]
  | Nat.succ _, _ :: _, _, 0 => by simp [every8]
  | Nat.succ n, a :: l, h, j + 1 => by
    have ih := every8_getElem_aux n (l.drop 7)
      (by simp only [List.length_drop]; simp at h; omega) j
    rw [show every8 (a :: l) = a :: every8 (l.drop 7) from by rw [every8]]
    rw [show (8 : Nat) * (j + 1) = (7 + 8 * j) + 1 by ring]
    rw [List.getElem?_cons_succ, List.getElem?_cons_succ, ih, List.getElem?_drop]
  | 0, _ :: _, h, _ => by simp at h

/-- Element characterization of every8. -/
theorem every8_getElem {α : Type} (l : List α) (j : Nat) :
    (every8 l)[j]? = l[8 * j]? :=
  every8_getElem_aux l.length l le_rfl j

/-- Fuel-indexed lemma: every8 keeps one element out of every eight, rounding
the length up. -/
theorem every8_length_aux {α : Type} :
    ∀ (n : Nat) (l : List α), l.length ≤ n → (every8 l).length = (l.length + 7) / 8
  | _, [], _ => by simp [every8]
  | Nat.succ n, a :: l, h => by
    have ih := every8_length_aux n (l.drop 7)
      (by simp only [List.length_drop]; simp at h; omega)
    rw [show every8 (a :: l) = a :: every8 (l.drop 7) from by rw [every8]]
    simp only [List.length_cons, ih, List.length_drop]
    omega
  | 0, _ :: _, h => by simp at h

/-- Length characterization of every8. -/
theorem every8_length {α : Type} (l : List α) :
    (every8 l).length = (l.length + 7) / 8 :=
  every8_length_aux l.length l le_rfl

/-- Skipping lemma: while no index in the window hits a multiple of eight, the
filtered enumeration may start after the window. -/
theorem enumFrom_filter_mod8_drop {α : Type} :
    ∀ (c : Nat) (l : List α) (k : Nat), (∀ i, i < c → (k + i) % 8 ≠ 0) →
      ((List.enumFrom k l).filter (fun p => p.1 % 8 == 0)).map Prod.snd =
      ((List.enumFrom (k + c) (l.drop c)).filter (fun p => p.1 % 8 == 0)).map Prod.snd
  | 0, l, k, _ => by simp
  | c + 1, [], k, _ => by simp
  | c + 1, a :: l, k, h => by
    have h0 : ¬((k % 8 == 0) = true) := by
      have := h 0 (by omega)
      simp only [Nat.add_zero] at this
      simp [this]
    rw [show List.enumFrom k (a :: l) = (k, a) :: List.enumFrom (k + 1) l from rfl]
    rw [List.filter_cons, if_neg h0]
    rw [enumFrom_filter_mod8_drop c l (k + 1)
      (fun i hi => by have := h (i + 1) (by omega); omega)]
    rw [show k + 1 + c = k + (c + 1) by omega]
    rfl

/-- The filtered-and-mapped enumeration of the source equals the structural
decimation, whenever the enumeration starts at a multiple of eight. -/
theorem enumFrom_filter_mod8_every8 {α : Type} :
    ∀ (n : Nat) (l : List α), l.length ≤ n → ∀ (k : Nat), k % 8 = 0 →
      ((List.enumFrom k l).filter (fun p => p.1 % 8 == 0)).map Prod.snd = every8 l
  | _, [], _, k, _ => by simp [every8]
  | Nat.succ n, a :: l, h, k, hk => by
    rw [show every8 (a :: l) = a :: every8 (l.drop 7) from by rw [every8]]
    rw [show List.enumFrom k (a :: l) = (k, a) :: List.enumFrom (k + 1) l from rfl]
    have hkeep : ((k % 8 == 0) = true) := by simp [hk]
    rw [List.filter_cons, if_pos hkeep, List.map_cons]
    congr 1
    rw [enumFrom_filter_mod8_drop 7 l (k + 1) (fun i hi => by omega)]
    exact enumFrom_filter_mod8_every8 n (l.drop 7)
      (by simp only [List.length_drop]; simp at h; omega) (k + 1 + 7) (by omega)
  | 0, _ :: _, h, _, _ => by simp at h

/-- Chart data is the decimated forecast, each point mapped to its label and
temperature. -/
theorem chartData_eq_every8 (fmt : Int → String) (l : List ForecastData) :
    chartData fmt l =
      (every8 l).map (fun item => ChartData.mk (fmt (item.dt * 1000)) item.main.temp) := by
  unfold chartData
  rw [show l.enum = List.enumFrom 0 l from rfl]
  rw [enumFrom_filter_mod8_every8 l.length l le_rfl 0 rfl]

/-- C6: from a forecast of 40 three-hour points the chart derives exactly 5
points, the forecast points at indices 0, 8, 16, 24 and 32, each carrying that
point its temperature and a label formatted from its timestamp. -/
theorem claim6_chart_five_points (fmt : Int → String) (fc : List ForecastData)
    (h : fc.length = 40) :
    (chartData fmt fc).length = 5 ∧
    ∀ j, j < 5 → (chartData fmt fc)[j]? =
      (fc[8 * j]?).map (fun item => ChartData.mk (fmt (item.dt * 1000)) item.main.temp) := by
  constructor
  · rw [chartData_eq_every8, List.length_map, every8_length, h]
  · intro j _
    rw [chartData_eq_every8, List.getElem?_map, every8_getElem]

/-- Concrete 40-point forecast used by the C6 witness. -/
def sampleForecast : List ForecastData :=
  (List.range 40).map (fun i => { dt := Int.ofNat i, main := { temp := Int.ofNat i } })

/-- Constant date label used by the C6 witness. -/
def constLabel : Int → String := fun _ => "day"

/-- Witness for C6 at a concrete 40-point forecast. -/
theorem claim6_witness :
    sampleForecast.length = 40 ∧
    ((chartData constLabel sampleForecast).length = 5 ∧
      ∀ j, j < 5 → (chartData constLabel sampleForecast)[j]? =
        (sampleForecast[8 * j]?).map
          (fun item => ChartData.mk (constLabel (item.dt * 1000)) item.main.temp)) :=
  ⟨by decide, claim6_chart_five_points constLabel sampleForecast (by decide)⟩

/-- Recent locations and favorites after fetchWeather: either both lists are
unchanged, or the searched location was absent from recents and was prepended
with truncation to five. -/
theorem fetchWeather_recents_cases (apiKey : Option String) (net : NetResponses)
    (loc : String) (s : AppState) :
    ((fetchWeather apiKey net loc s).1.recentLocations = s.recentLocations ∧
      (fetchWeather apiKey net loc s).1.favorites = s.favorites) ∨
    (loc ∉ s.recentLocations ∧
      (fetchWeather apiKey net loc s).1.recentLocations =
        (loc :: s.recentLocations).take 5 ∧
      (fetchWeather apiKey net loc s).1.favorites = s.favorites) := by
  unfold fetchWeather
  split
  · exact Or.inl ⟨rfl, rfl⟩
  · cases net.weatherResp with
    | none => exact Or.inl ⟨rfl, rfl⟩
    | some w =>
      cases net.forecastResp with
      | none => exact Or.inl ⟨rfl, rfl⟩
      | some fl =>
        by_cases hm : loc ∈ s.recentLocations
        · left
          constructor <;> simp [hm]
        · right
          refine ⟨hm, ?_, ?_⟩ <;> simp [hm]

/-- Inv is preserved by fetchWeather. -/
theorem Inv_fetchWeather (apiKey : Option String) (net : NetResponses) (loc : String)
    (s : AppState) (h : Inv s) : Inv (fetchWeather apiKey net loc s).1 := by
  obtain ⟨h1, h2, h3⟩ := h
  rcases fetchWeather_recents_cases apiKey net loc s with ⟨hr, hfav⟩ | ⟨hm, hr, hfav⟩
  · exact ⟨hr ▸ h1, hr ▸ h2, hfav ▸ h3⟩
  · refine ⟨?_, ?_, hfav ▸ h3⟩
    · rw [hr]
      exact List.length_take_le 5 _
    · rw [hr]
      exact (List.take_sublist 5 _).nodup (List.nodup_cons.mpr ⟨hm, h2⟩)

/-- Inv is preserved by handleSearch. -/
theorem Inv_handleSearch (apiKey : Option String) (net : NetResponses)
    (s : AppState) (h : Inv s) : Inv (handleSearch apiKey net s).1 := by
  unfold handleSearch
  split
  · exact h
  · exact Inv_fetchWeather apiKey net s.location s h

/-- Inv is preserved by toggleFavorite. -/
theorem Inv_toggleFavorite (loc : String) (s : AppState) (h : Inv s) :
    Inv (toggleFavorite loc s) := by
  obtain ⟨h1, h2, h3⟩ := h
  unfold toggleFavorite
  split
  · exact ⟨h1, h2, h3.filter _⟩
  next hm =>
    refine ⟨h1, h2, ?_⟩
    rw [List.nodup_append]
    refine ⟨h3, List.nodup_singleton loc, ?_⟩
    intro x hx hx2
    simp only [List.mem_singleton] at hx2
    subst hx2
    exact hm hx

/-- Inv is preserved by undoLastAction. -/
theorem Inv_undoLastAction (s : AppState) (h : Inv s) : Inv (undoLastAction s) := by
  unfold undoLastAction
  rcases hla : s.lastAction with _ | a
  · exact h
  · dsimp only
    split
    · exact h
    · exact h

/-- C7: every state reachable from the initial state by user events keeps at
most five recent locations with no duplicates and duplicate-free favorites;
each event application preserves this. -/
theorem claim7_reachable_invariant (s : AppState) (h : Reachable s) : Inv s := by
  induction h with
  | init => exact ⟨by decide, by decide, by decide⟩
  | step apiKey net e hs ih =>
    cases e with
    | submit => exact Inv_handleSearch apiKey net _ ih
    | chipSearch loc => exact Inv_fetchWeather apiKey net loc _ ih
    | favToggle loc => exact Inv_toggleFavorite loc _ ih
    | unitsToggle => exact ih
    | undo => exact Inv_undoLastAction _ ih
    | themeToggle => exact ih
    | dismissInfo => exact ih
    | detailsToggle => exact ih
    | inputChange t => exact ih

/-- Witness for C7 at a concrete reachable state: the initial state after a
favorite toggle for Paris. -/
theorem claim7_witness :
    Inv (applyEvent none sampleNetOk (Event.favToggle "Paris") initState).1 :=
  claim7_reachable_invariant _
    (Reachable.step none sampleNetOk (Event.favToggle "Paris") Reachable.init)

/-- Witness for C10 at a concrete repeated search for Paris. -/
theorem claim10_witness :
    apiKeyMissing (some "k") = false ∧
    sampleNetOk.weatherResp = some sampleWeather ∧
    sampleNetOk.forecastResp = some [] ∧
    "Paris" ∈ stateWithParis.recentLocations ∧
    ((fetchWeather (some "k") sampleNetOk "Paris" stateWithParis).1).recentLocations =
      stateWithParis.recentLocations :=
  ⟨by decide, rfl, rfl, by decide,
    claim10_search_existing_keeps_recents (some "k") sampleNetOk sampleWeather [] "Paris"
      stateWithParis (by decide) rfl rfl (by decide)⟩

end WeatherApp
